import Mathlib

/-!
Verification of the throttlesocks rate-limited connection wrapper.

The development shallowly embeds the Go sources:
  * `limit.go` — `LimitedConnection`, `rateLimitLoop`, `Close`, `GetGoodBurst`,
    `MinBurstSize`/`MaxBurstSize`, `timeoutError`;
  * the bandwidth-limit parser — `uomSuffixes`, `parseSuffix`, `ParseLimit`.

Machine integers are modelled as `Int` with explicit two's-complement wrapping
(`wrap64`) where Go's `int64` arithmetic can overflow.  Instants (`time.Time`)
are modelled as `Int`, with `0` standing for the zero `time.Time` (so
`IsZero` becomes `= 0` and `Before` becomes `<`).  Effects of `rateLimitLoop`
(the two `time.Now()` reads, the single underlying I/O call, the reservation
delay, and the outcome of each `waitUntil` race against the close channel) are
supplied by an environment record `Env`, and the function returns, besides the
Go results `(cntr, err)`, a trace of its observable actions (chunks passed to
the underlying primitive, tokens reserved, waits performed).
-/

/-- Errors that a `rateLimitLoop` call can return: `io.ErrClosedPipe`, the
package's own `timeoutError`, or an arbitrary error bubbled up from the
wrapped connection (identified by an opaque code). -/
inductive GoErr where
  | closedPipe
  | timeout
  | inner (code : Nat)
deriving DecidableEq, Repr

/-- A Go runtime panic relevant to this code: `close` of an already-closed
channel. -/
inductive GoPanic where
  | closeOfClosedChannel
deriving DecidableEq, Repr

/-- Mirrors the Go `timeoutError` empty struct from limit.go. -/
structure timeoutError where
deriving DecidableEq

/-- Go method `timeoutError.Timeout`. -/
def timeoutError.Timeout (_ : timeoutError) : Bool := true

/-- Go method `timeoutError.Temporary`. -/
def timeoutError.Temporary (_ : timeoutError) : Bool := true

/-- Go method `timeoutError.Error`. -/
def timeoutError.Error (_ : timeoutError) : String := "deadline exceeded"

/-- Environment for one `rateLimitLoop` invocation: the values its effects
observe.  `now1` is the first `time.Now()`, `now2` the second; `burst` is
`c.limiter.Burst()`; `innerN`/`innerErr` are the result of the single
`innerAct` call; `delay` is `r.DelayFrom(now)` for the reservation;
`closedDuringWait1`/`closedDuringWait2` are the results of the pre-I/O and
post-I/O `waitUntil` races (`true` means the close channel fired first). -/
structure Env where
  now1 : Int
  now2 : Int
  burst : Nat
  innerN : Nat
  innerErr : Option GoErr
  delay : Int
  closedDuringWait1 : Bool
  closedDuringWait2 : Bool
deriving DecidableEq, Repr

/-- Result of a `rateLimitLoop` invocation: the returned byte count `cntr` and
error `err`, the final value of the direction's not-before timestamp, and a
trace of observable actions: whether the pre-I/O and post-I/O waits ran,
the list of chunk sizes passed to the underlying primitive (one entry per
underlying I/O call), and the token counts reserved from the shared limiter
(one entry per `ReserveN` call). -/
structure RLResult where
  cntr : Nat
  err : Option GoErr
  notBefore : Int
  preWaited : Bool
  postWaited : Bool
  ioChunks : List Nat
  reservedN : Option Nat
deriving DecidableEq, Repr

/-- The pre-I/O wait target `until` computed by `rateLimitLoop`: the Go
`var until time.Time` stays the zero instant unless `now` is before the
direction's not-before timestamp, in which case it is that timestamp, lowered
to the deadline when the deadline is non-zero and earlier. -/
def waitTarget (notBefore deadline now : Int) : Int :=
  if now < notBefore then
    if deadline ≠ 0 ∧ deadline < notBefore then deadline else notBefore
  else 0

/-- Whether `rateLimitLoop` enters its pre-I/O `waitUntil` call: the Go
`!until.IsZero()` test. -/
def preWaitFlag (notBefore deadline now : Int) : Bool :=
  if waitTarget notBefore deadline now = 0 then false else true

/-- The chunk passed to the single underlying I/O call: the Go
`burst := c.limiter.Burst(); if burst > len(b)-cntr { burst = len(b)-cntr }`
with `cntr = 0`. -/
def chunkSize (burst bLen : Nat) : Nat :=
  if burst > bLen then bLen else burst

/-- Shallow embedding of `(*LimitedConnection).rateLimitLoop` from limit.go.
`notBefore` and `deadline` are the direction's timestamps on entry, `bLen` is
`len(b)`.  Each branch mirrors the Go control flow:
zero-length fast path; pre-I/O wait on `notBefore`/`deadline` racing the
close channel; single chunked I/O of size `min(burst, len(b))`; early return
on a zero-byte transfer; reservation of `n` tokens at instant `now2`, whose
earliest-usable instant is `act = now2 + delay`; then either the
deadline-beats-reservation timeout return (which stores `act` into the
not-before timestamp) or a wait until `act` racing the close channel. -/
def rateLimitLoop (notBefore deadline : Int) (env : Env) (bLen : Nat) : RLResult :=
  if bLen = 0 then
    { cntr := env.innerN, err := env.innerErr, notBefore := notBefore,
      preWaited := false, postWaited := false, ioChunks := [bLen], reservedN := none }
  else if waitTarget notBefore deadline env.now1 ≠ 0 ∧ env.closedDuringWait1 = true then
    { cntr := 0, err := some GoErr.closedPipe, notBefore := notBefore,
      preWaited := true, postWaited := false, ioChunks := [], reservedN := none }
  else if env.innerN = 0 then
    { cntr := 0, err := env.innerErr, notBefore := notBefore,
      preWaited := preWaitFlag notBefore deadline env.now1, postWaited := false,
      ioChunks := [chunkSize env.burst bLen], reservedN := none }
  else if env.now2 < env.now2 + env.delay then
    if deadline ≠ 0 ∧ deadline < env.now2 + env.delay then
      { cntr := env.innerN, err := some GoErr.timeout, notBefore := env.now2 + env.delay,
        preWaited := preWaitFlag notBefore deadline env.now1, postWaited := false,
        ioChunks := [chunkSize env.burst bLen], reservedN := some env.innerN }
    else if env.now2 + env.delay ≠ 0 then
      if env.closedDuringWait2 = true then
        { cntr := env.innerN, err := some GoErr.closedPipe, notBefore := notBefore,
          preWaited := preWaitFlag notBefore deadline env.now1, postWaited := true,
          ioChunks := [chunkSize env.burst bLen], reservedN := some env.innerN }
      else
        { cntr := env.innerN, err := env.innerErr, notBefore := notBefore,
          preWaited := preWaitFlag notBefore deadline env.now1, postWaited := true,
          ioChunks := [chunkSize env.burst bLen], reservedN := some env.innerN }
    else
      { cntr := env.innerN, err := env.innerErr, notBefore := notBefore,
        preWaited := preWaitFlag notBefore deadline env.now1, postWaited := false,
        ioChunks := [chunkSize env.burst bLen], reservedN := some env.innerN }
  else
    { cntr := env.innerN, err := env.innerErr, notBefore := notBefore,
      preWaited := preWaitFlag notBefore deadline env.now1, postWaited := false,
      ioChunks := [chunkSize env.burst bLen], reservedN := some env.innerN }

/-- State of a `LimitedConnection`: the per-direction not-before timestamps
and deadlines, and whether the `close` channel has been closed.  The wrapped
connection and the shared limiter are left abstract (the limiter's burst is
observed through `Env.burst`). -/
structure LimitedConnection where
  readNotBefore : Int
  writeNotBefore : Int
  readDeadline : Int
  writeDeadline : Int
  closed : Bool
deriving DecidableEq, Repr

/-- Embedding of `NewLimitedConnection`: the struct literal sets only `inner`,
`limiter` and `close`, so every timestamp field starts as the zero
`time.Time` and the close channel starts open. -/
def NewLimitedConnection : LimitedConnection :=
  { readNotBefore := 0, writeNotBefore := 0,
    readDeadline := 0, writeDeadline := 0, closed := false }

/-- Embedding of `(*LimitedConnection).Read`: `rateLimitLoop` on the read
direction's fields; the returned connection reflects the write to
`*notBefore` (the only field `rateLimitLoop` mutates). -/
def LimitedConnection.Read (c : LimitedConnection) (env : Env) (bLen : Nat) :
    RLResult × LimitedConnection :=
  let r := rateLimitLoop c.readNotBefore c.readDeadline env bLen
  (r, { c with readNotBefore := r.notBefore })

/-- Embedding of `(*LimitedConnection).Write`: `rateLimitLoop` on the write
direction's fields. -/
def LimitedConnection.Write (c : LimitedConnection) (env : Env) (bLen : Nat) :
    RLResult × LimitedConnection :=
  let r := rateLimitLoop c.writeNotBefore c.writeDeadline env bLen
  (r, { c with writeNotBefore := r.notBefore })

/-- Outcome of `(*LimitedConnection).Close`: either the updated connection, or
a runtime panic. -/
inductive CloseResult where
  | ok (c : LimitedConnection)
  | panicked (p : GoPanic)
deriving DecidableEq, Repr

/-- Embedding of `(*LimitedConnection).Close`: `close(c.close)` panics when
the channel is already closed (Go language rule); otherwise the channel
becomes closed and the inner connection is closed. -/
def LimitedConnection.Close (c : LimitedConnection) : CloseResult :=
  if c.closed then CloseResult.panicked GoPanic.closeOfClosedChannel
  else CloseResult.ok { c with closed := true }

/-- Two successive `Close` calls on the same connection, propagating a panic
from the first. -/
def closeTwice (c : LimitedConnection) : CloseResult :=
  match c.Close with
  | CloseResult.ok c2 => c2.Close
  | CloseResult.panicked p => CloseResult.panicked p

/-- Embedding of `MinBurstSize` from limit.go. -/
def MinBurstSize : Int := 1

/-- Embedding of `MaxBurstSize` from limit.go (`64 * 1024`). -/
def MaxBurstSize : Int := 64 * 1024

/-- Embedding of `GetGoodBurst` from limit.go, at the integer rates the
program constructs (`rate.Limit(bps)` for an `int64` bytes-per-second value):
rate `0` maps to `MaxBurstSize`; otherwise `int64(l) / 20` (Go division,
truncating toward zero) clamped into `[MinBurstSize, MaxBurstSize]`. -/
def GetGoodBurst (l : Int) : Int :=
  if l = 0 then MaxBurstSize
  else
    let burstSize := Int.tdiv l 20
    if burstSize < MinBurstSize then MinBurstSize
    else if burstSize > MaxBurstSize then MaxBurstSize
    else burstSize

/-- Largest `int64` value, `2^63 - 1`. -/
def int64Max : Int := 9223372036854775807

/-- Smallest `int64` value, `-2^63`. -/
def int64Min : Int := -9223372036854775808

/-- Two's-complement wrap of an integer into the `int64` range, the effect of
Go `int64` arithmetic on overflow. -/
def wrap64 (x : Int) : Int :=
  (x + 9223372036854775808) % 18446744073709551616 - 9223372036854775808

/-- Go `unicode` decimal-digit test as used by `strconv.ParseInt` in base 10. -/
def goIsDigit (c : Char) : Bool := '0' ≤ c && c ≤ '9'

/-- Value of a base-10 digit string; `none` if any character is not a
decimal digit. -/
def digitsVal (cs : List Char) : Option Nat :=
  cs.foldl
    (fun acc c =>
      match acc with
      | none => none
      | some a => if goIsDigit c then some (a * 10 + (c.toNat - '0'.toNat)) else none)
    (some 0)

/-- Embedding of `strconv.ParseInt(s, 10, 64)`: optional leading sign, at
least one decimal digit, value within the `int64` range; `none` on any
parse error (empty string, stray character, overflow). -/
def goParseInt64 (s : List Char) : Option Int :=
  match s with
  | [] => none
  | c :: rest =>
    let neg : Bool := c = '-'
    let ds : List Char := if c = '-' ∨ c = '+' then rest else c :: rest
    if ds = [] then none
    else
      match digitsVal ds with
      | none => none
      | some n =>
        let v : Int := if neg then -(n : Int) else (n : Int)
        if int64Min ≤ v ∧ v ≤ int64Max then some v else none

/-- One entry of the unit-of-measurement suffix table: the suffix string,
the multiplier and the divisor applied to the parsed number. -/
structure UomSuffix where
  unit : List Char
  mul : Int
  div : Int
deriving DecidableEq, Repr

/-- Embedding of `uomSuffixes`: bit-per-second units use powers of 1000 and
divide by 8; byte-per-second units use powers of 1024. Order matters:
`Kbps`/`Mbps`/`Gbps` are tried before the plain `bps` they end with. -/
def uomSuffixes : List UomSuffix :=
  [ ⟨"Kbps".data, 1000, 8⟩,
    ⟨"Mbps".data, 1000 * 1000, 8⟩,
    ⟨"Gbps".data, 1000 * 1000 * 1000, 8⟩,
    ⟨"KBps".data, 1024, 1⟩,
    ⟨"MBps".data, 1024 * 1024, 1⟩,
    ⟨"GBps".data, 1024 * 1024 * 1024, 1⟩,
    ⟨"bps".data, 1, 8⟩,
    ⟨"Bps".data, 1, 1⟩ ]

/-- Recursion of `parseSuffix` over the suffix table: the first entry whose
unit is a suffix of `s` wins; `strings.HasSuffix` becomes `List.isSuffixOf`
on the character list and the Go slice `s[0 : len(s)-len(unit)]` becomes
`List.take`. If no entry matches, the string is returned as is with
multiplier 1 and divisor 1. -/
def parseSuffixList : List UomSuffix → List Char → List Char × Int × Int
  | [], s => (s, 1, 1)
  | v :: rest, s =>
    if List.isSuffixOf v.unit s then (s.take (s.length - v.unit.length), v.mul, v.div)
    else parseSuffixList rest s

/-- Embedding of `parseSuffix`: strip a recognized unit suffix, returning the
remaining string, the multiplier and the divisor. -/
def parseSuffix (s : List Char) : List Char × Int × Int :=
  parseSuffixList uomSuffixes s

/-- Kinds of error `ParseLimit` can return: `strconv.ParseInt` failure, or
the defensive negative-value check. -/
inductive ParseErr where
  | badNumber
  | negative
deriving DecidableEq, Repr

/-- Outcome of `ParseLimit`: the Go pair `(int64, error)`. -/
inductive ParseResult where
  | ok (v : Int)
  | error (e : ParseErr)
deriving DecidableEq, Repr

/-- Embedding of `ParseLimit`: strip the suffix, parse the number, multiply
by the unit multiplier with Go `int64` wrap-around, divide by the unit
divisor (Go division truncates toward zero; the table's divisors are 1 and
8, so the division itself cannot overflow), and reject a negative result. -/
def ParseLimit (s : String) : ParseResult :=
  match parseSuffix s.data with
  | (numberString, mul, dv) =>
    match goParseInt64 numberString with
    | none => ParseResult.error ParseErr.badNumber
    | some v =>
      let v1 := wrap64 (v * mul)
      let v2 := Int.tdiv v1 dv
      if v2 < 0 then ParseResult.error ParseErr.negative
      else ParseResult.ok v2

/-- Modelled from the spec: the documented bandwidth-limit grammar — a
non-empty string of decimal digits (a non-negative base-10 integer),
optionally followed by one of the recognized unit suffixes.  Used to state
the claim that grammatical inputs never trip the negative-value check. -/
def Grammatical (s : String) : Prop :=
  ∃ num suf : List Char,
    s.data = num ++ suf ∧ num ≠ [] ∧ num.all goIsDigit = true ∧
      (suf ∈ uomSuffixes.map UomSuffix.unit ∨ suf = [])

/-! ### Helper lemmas -/

/-- The chunk handed to the underlying primitive is `min(burst, len(b))`. -/
theorem chunkSize_eq_min (burst bLen : Nat) : chunkSize burst bLen = min burst bLen := by
  unfold chunkSize; split_ifs <;> omega

/-- A clock reading at or after the zero instant that is before the
not-before timestamp always produces a non-zero wait target. -/
theorem waitTarget_ne_zero (notBefore deadline now : Int) (h0 : 0 ≤ now)
    (h1 : now < notBefore) : waitTarget notBefore deadline now ≠ 0 := by
  unfold waitTarget; split_ifs <;> omega

/-- With a zero not-before timestamp and a clock at or after the zero
instant, the wait target is the zero instant. -/
theorem waitTarget_eq_zero (deadline now : Int) (h0 : 0 ≤ now) :
    waitTarget 0 deadline now = 0 := by
  unfold waitTarget; split_ifs <;> omega

/-- Any non-zero-length call that is not cut short by a close during the
pre-I/O wait performs exactly one underlying I/O call, of size
`min(burst, len(b))`. -/
theorem rateLimitLoop_ioChunks (notBefore deadline : Int) (env : Env) (bLen : Nat)
    (hb : bLen ≠ 0) (hcl : env.closedDuringWait1 = false) :
    (rateLimitLoop notBefore deadline env bLen).ioChunks = [min env.burst bLen] := by
  unfold rateLimitLoop
  split_ifs <;> simp_all [chunkSize_eq_min]

/-- Core of the timeout path: when the call reaches the reservation with a
positive delay and the non-zero deadline is earlier than the
earliest-usable instant, `rateLimitLoop` returns the transferred count with
`timeoutError` and stores that instant into the not-before timestamp. -/
theorem rateLimitLoop_timeout (notBefore deadline : Int) (env : Env) (bLen : Nat)
    (hb : bLen ≠ 0) (hcl : env.closedDuringWait1 = false) (hn : env.innerN ≠ 0)
    (hdel : 0 < env.delay) (hdl : deadline ≠ 0) (hlt : deadline < env.now2 + env.delay) :
    rateLimitLoop notBefore deadline env bLen =
      { cntr := env.innerN, err := some GoErr.timeout, notBefore := env.now2 + env.delay,
        preWaited := preWaitFlag notBefore deadline env.now1, postWaited := false,
        ioChunks := [min env.burst bLen], reservedN := some env.innerN } := by
  unfold rateLimitLoop
  split_ifs <;> simp_all [chunkSize_eq_min]

/-- Core of the closed-during-pre-wait path: if the clock is before the
not-before timestamp and the close signal wins the pre-I/O wait, the call
fails with `io.ErrClosedPipe`, transfers nothing, performs no underlying
I/O and reserves no tokens. -/
theorem rateLimitLoop_closed_prewait (notBefore deadline : Int) (env : Env) (bLen : Nat)
    (hb : bLen ≠ 0) (hnow : 0 ≤ env.now1) (hwait : env.now1 < notBefore)
    (hcl : env.closedDuringWait1 = true) :
    rateLimitLoop notBefore deadline env bLen =
      { cntr := 0, err := some GoErr.closedPipe, notBefore := notBefore,
        preWaited := true, postWaited := false, ioChunks := [], reservedN := none } := by
  unfold rateLimitLoop
  have hw := waitTarget_ne_zero notBefore deadline env.now1 hnow hwait
  split_ifs <;> simp_all

/-- Core of the zero-transfer path: a zero-byte underlying result is
returned as is, with no reservation and no change to the not-before
timestamp. -/
theorem rateLimitLoop_zero_transfer (notBefore deadline : Int) (env : Env) (bLen : Nat)
    (hb : bLen ≠ 0) (hcl : env.closedDuringWait1 = false) (hn : env.innerN = 0) :
    rateLimitLoop notBefore deadline env bLen =
      { cntr := 0, err := env.innerErr, notBefore := notBefore,
        preWaited := preWaitFlag notBefore deadline env.now1, postWaited := false,
        ioChunks := [chunkSize env.burst bLen], reservedN := none } := by
  unfold rateLimitLoop
  split_ifs <;> simp_all

/-- With a zero not-before timestamp the pre-I/O wait flag is off. -/
theorem preWaitFlag_zero (deadline now : Int) (h0 : 0 ≤ now) :
    preWaitFlag 0 deadline now = false := by
  unfold preWaitFlag
  rw [waitTarget_eq_zero deadline now h0]
  simp

/-- A call on a direction whose not-before timestamp is the zero instant
never enters the pre-I/O wait. -/
theorem rateLimitLoop_no_prewait (deadline : Int) (env : Env) (bLen : Nat)
    (hnow : 0 ≤ env.now1) :
    (rateLimitLoop 0 deadline env bLen).preWaited = false := by
  unfold rateLimitLoop
  have hw := waitTarget_eq_zero deadline env.now1 hnow
  have hf := preWaitFlag_zero deadline env.now1 hnow
  split_ifs <;> simp_all

/-- Every multiplier produced by the suffix-table recursion is positive,
provided every table entry's multiplier is. -/
theorem parseSuffixList_mul_pos (l : List UomSuffix) (s : List Char)
    (h : ∀ u ∈ l, 0 < u.mul) : 0 < (parseSuffixList l s).2.1 := by
  induction l with
  | nil => simp [parseSuffixList]
  | cons v rest ih =>
    simp only [parseSuffixList]
    split_ifs
    · exact h v (by simp)
    · exact ih (fun u hu => h u (by simp [hu]))

/-- Every divisor produced by the suffix-table recursion is positive,
provided every table entry's divisor is. -/
theorem parseSuffixList_div_pos (l : List UomSuffix) (s : List Char)
    (h : ∀ u ∈ l, 0 < u.div) : 0 < (parseSuffixList l s).2.2 := by
  induction l with
  | nil => simp [parseSuffixList]
  | cons v rest ih =>
    simp only [parseSuffixList]
    split_ifs
    · exact h v (by simp)
    · exact ih (fun u hu => h u (by simp [hu]))

/-- The multiplier `parseSuffix` returns is positive. -/
theorem parseSuffix_mul_pos (s : List Char) : 0 < (parseSuffix s).2.1 :=
  parseSuffixList_mul_pos uomSuffixes s (by decide)

/-- The divisor `parseSuffix` returns is positive. -/
theorem parseSuffix_div_pos (s : List Char) : 0 < (parseSuffix s).2.2 :=
  parseSuffixList_div_pos uomSuffixes s (by decide)

/-- Two's-complement wrapping is the identity on values already inside the
`int64` range. -/
theorem wrap64_eq_self (x : Int) (h0 : 0 ≤ x) (h1 : x ≤ int64Max) : wrap64 x = x := by
  unfold wrap64
  unfold int64Max at h1
  rw [Int.emod_eq_of_lt (by omega) (by omega)]
  omega

/-! ### Claim theorems -/

/-- C1: a Read or Write call with a non-empty buffer whose post-I/O token
reservation yields an earliest-usable instant in the future, while the
direction's deadline is non-zero and earlier than that instant, does not
block: it stores that instant into the direction's not-before timestamp and
returns the transferred byte count with the `timeoutError`, whose
`Timeout()` and `Temporary()` methods both return `true`; the connection
stays usable — a subsequent call on the same direction still reaches the
underlying I/O whenever it is not cut short by a close. -/
theorem read_write_timeout_when_deadline_precedes_reservation
    (c : LimitedConnection) (env : Env) (bLen : Nat)
    (hb : bLen ≠ 0) (hcl : env.closedDuringWait1 = false) (hn : env.innerN ≠ 0)
    (hdel : 0 < env.delay)
    (hrdl : c.readDeadline ≠ 0) (hrlt : c.readDeadline < env.now2 + env.delay)
    (hwdl : c.writeDeadline ≠ 0) (hwlt : c.writeDeadline < env.now2 + env.delay) :
    ((c.Read env bLen).1.cntr = env.innerN ∧
     (c.Read env bLen).1.err = some GoErr.timeout ∧
     (c.Read env bLen).1.postWaited = false ∧
     (c.Read env bLen).2.readNotBefore = env.now2 + env.delay) ∧
    ((c.Write env bLen).1.cntr = env.innerN ∧
     (c.Write env bLen).1.err = some GoErr.timeout ∧
     (c.Write env bLen).1.postWaited = false ∧
     (c.Write env bLen).2.writeNotBefore = env.now2 + env.delay) ∧
    (timeoutError.Timeout timeoutError.mk = true ∧
     timeoutError.Temporary timeoutError.mk = true) ∧
    (∀ env2 : Env, ∀ bLen2 : Nat, bLen2 ≠ 0 → env2.closedDuringWait1 = false →
      ((c.Read env bLen).2.Read env2 bLen2).1.ioChunks = [min env2.burst bLen2] ∧
      ((c.Write env bLen).2.Write env2 bLen2).1.ioChunks = [min env2.burst bLen2]) := by
  have hr := rateLimitLoop_timeout c.readNotBefore c.readDeadline env bLen
    hb hcl hn hdel hrdl hrlt
  have hw := rateLimitLoop_timeout c.writeNotBefore c.writeDeadline env bLen
    hb hcl hn hdel hwdl hwlt
  refine ⟨?_, ?_, ⟨rfl, rfl⟩, ?_⟩
  · simp [LimitedConnection.Read, hr]
  · simp [LimitedConnection.Write, hw]
  · intro env2 bLen2 hb2 hcl2
    constructor
    · simp only [LimitedConnection.Read]
      exact rateLimitLoop_ioChunks _ _ env2 bLen2 hb2 hcl2
    · simp only [LimitedConnection.Write]
      exact rateLimitLoop_ioChunks _ _ env2 bLen2 hb2 hcl2

/-- Witness for C1 at a concrete state: not-before timestamps 0, both
deadlines 5, clock readings 1 and 2, burst 4, 3 bytes transferred,
reservation delay 10 (earliest-usable instant 12, after the deadline). -/
theorem read_write_timeout_when_deadline_precedes_reservation_witness :
    (((LimitedConnection.mk 0 0 5 5 false).Read (Env.mk 1 2 4 3 none 10 false false) 8).1.err
        = some GoErr.timeout) ∧
    (((LimitedConnection.mk 0 0 5 5 false).Read (Env.mk 1 2 4 3 none 10 false false) 8).2.readNotBefore
        = 12) ∧
    (((LimitedConnection.mk 0 0 5 5 false).Write (Env.mk 1 2 4 3 none 10 false false) 8).1.cntr
        = 3) ∧
    ((((LimitedConnection.mk 0 0 5 5 false).Read (Env.mk 1 2 4 3 none 10 false false) 8).2.Read
        (Env.mk 13 14 4 3 none 0 false false) 6).1.ioChunks = [4]) := by
  have h := read_write_timeout_when_deadline_precedes_reservation
    (LimitedConnection.mk 0 0 5 5 false) (Env.mk 1 2 4 3 none 10 false false) 8
    (by decide) rfl (by decide) (by decide) (by decide) (by decide) (by decide) (by decide)
  refine ⟨h.1.2.1, by rw [h.1.2.2.2]; norm_num, h.2.1.1, ?_⟩
  have h4 := h.2.2.2 (Env.mk 13 14 4 3 none 0 false false) 6 (by decide) rfl
  rw [h4.1]
  norm_num

/-- C2 counterexample: calling `Close` twice on a fresh connection does not
complete normally — the second `close(c.close)` panics with "close of
closed channel". -/
theorem double_close_counterexample :
    closeTwice NewLimitedConnection = CloseResult.panicked GoPanic.closeOfClosedChannel := by
  decide

/-- C2 (amended): `Close` is not idempotent in this code: the first `Close`
on a fresh connection succeeds and marks the close channel closed, and a
second `Close` on the resulting state panics (Go panics on closing an
already-closed channel) instead of completing. -/
theorem close_twice_panics :
    NewLimitedConnection.Close = CloseResult.ok (LimitedConnection.mk 0 0 0 0 true) ∧
    (LimitedConnection.mk 0 0 0 0 true).Close
      = CloseResult.panicked GoPanic.closeOfClosedChannel := by
  decide

/-- C3: a Read or Write call with a non-empty buffer that establishes a
pre-I/O wait target (the clock is before the direction's not-before
timestamp) and whose close signal fires before the wait target returns the
closed-connection error with a zero byte count, performs no underlying I/O
and consumes no reservation. -/
theorem read_write_closed_during_prewait
    (c : LimitedConnection) (env : Env) (bLen : Nat)
    (hb : bLen ≠ 0) (hnow : 0 ≤ env.now1) (hcl : env.closedDuringWait1 = true)
    (hr : env.now1 < c.readNotBefore) (hw : env.now1 < c.writeNotBefore) :
    ((c.Read env bLen).1.cntr = 0 ∧
     (c.Read env bLen).1.err = some GoErr.closedPipe ∧
     (c.Read env bLen).1.ioChunks = [] ∧
     (c.Read env bLen).1.reservedN = none) ∧
    ((c.Write env bLen).1.cntr = 0 ∧
     (c.Write env bLen).1.err = some GoErr.closedPipe ∧
     (c.Write env bLen).1.ioChunks = [] ∧
     (c.Write env bLen).1.reservedN = none) := by
  have h1 := rateLimitLoop_closed_prewait c.readNotBefore c.readDeadline env bLen
    hb hnow hr hcl
  have h2 := rateLimitLoop_closed_prewait c.writeNotBefore c.writeDeadline env bLen
    hb hnow hw hcl
  constructor
  · simp [LimitedConnection.Read, h1]
  · simp [LimitedConnection.Write, h2]

/-- Witness for C3 at a concrete state: not-before timestamps 9, clock 1,
close signal firing during the pre-I/O wait. -/
theorem read_write_closed_during_prewait_witness :
    (((LimitedConnection.mk 9 9 0 0 false).Read (Env.mk 1 2 4 3 none 0 true false) 5).1.cntr
        = 0) ∧
    (((LimitedConnection.mk 9 9 0 0 false).Read (Env.mk 1 2 4 3 none 0 true false) 5).1.err
        = some GoErr.closedPipe) ∧
    (((LimitedConnection.mk 9 9 0 0 false).Write (Env.mk 1 2 4 3 none 0 true false) 5).1.ioChunks
        = []) := by
  have h := read_write_closed_during_prewait
    (LimitedConnection.mk 9 9 0 0 false) (Env.mk 1 2 4 3 none 0 true false) 5
    (by decide) (by decide) rfl (by decide) (by decide)
  exact ⟨h.1.1, h.1.2.1, h.2.2.2.1⟩

/-- C4 (evaluation at the failing input): `ParseLimit("-5bps")` returns no
error — the value −5 is multiplied by 1 and divided by 8 with truncation
toward zero before the negativity check runs, so the check sees 0 and the
call succeeds with 0 bytes per second. -/
theorem parseLimit_neg5bps_returns_ok_zero :
    ParseLimit "-5bps" = ParseResult.ok 0 := by decide

/-- C5 counterexample: `ParseLimit("100")` does not return 12. -/
theorem parseLimit_100_counterexample :
    ParseLimit "100" ≠ ParseResult.ok 12 := by decide

/-- C5 (amended): a numeric string with no recognized unit suffix is parsed
with multiplier 1 *and divisor 1* — the number is used unchanged, not
divided by 8 — so `ParseLimit("100")` returns 100. -/
theorem parseLimit_no_suffix_uses_value_unchanged :
    parseSuffix "100".data = ("100".data, 1, 1) ∧
    ParseLimit "100" = ParseResult.ok 100 := by decide

/-- Shape of `ParseLimit` once the numeric portion parses: multiply with
`int64` wrap, divide truncating toward zero, then apply the negative-value
check. -/
theorem ParseLimit_eq (s : String) (v : Int)
    (hv : goParseInt64 (parseSuffix s.data).1 = some v) :
    ParseLimit s =
      (if Int.tdiv (wrap64 (v * (parseSuffix s.data).2.1)) (parseSuffix s.data).2.2 < 0
        then ParseResult.error ParseErr.negative
        else ParseResult.ok
          (Int.tdiv (wrap64 (v * (parseSuffix s.data).2.1)) (parseSuffix s.data).2.2)) := by
  unfold ParseLimit
  rcases hps : parseSuffix s.data with ⟨num, mul, dv⟩
  rw [hps] at hv
  simp only [hv]

/-- C6 counterexample: an input matching the documented grammar on which the
defensive negative-value check fires — the `int64` product
`9223372036854775807 * 1000` wraps around to a negative value. -/
theorem grammatical_input_trips_negative_check :
    Grammatical "9223372036854775807Kbps" ∧
    ParseLimit "9223372036854775807Kbps" = ParseResult.error ParseErr.negative := by
  constructor
  · exact ⟨"9223372036854775807".data, "Kbps".data, by decide, by decide, by decide,
      Or.inl (by decide)⟩
  · decide

/-- C6 (amended): the computed bytes-per-second value can be negative on a
grammatical input when the `int64` multiplication overflows; whenever the
numeric portion parses to a non-negative value whose product with the unit
multiplier fits in `int64`, the computed value is non-negative and the
defensive check does not fire. -/
theorem parseLimit_nonneg_when_product_fits (s : String) (v : Int)
    (hv : goParseInt64 (parseSuffix s.data).1 = some v) (hnn : 0 ≤ v)
    (hfit : v * (parseSuffix s.data).2.1 ≤ int64Max) :
    ∃ r, ParseLimit s = ParseResult.ok r ∧ 0 ≤ r := by
  have hmul := parseSuffix_mul_pos s.data
  have hdv := parseSuffix_div_pos s.data
  have hw : wrap64 (v * (parseSuffix s.data).2.1) = v * (parseSuffix s.data).2.1 :=
    wrap64_eq_self _ (mul_nonneg hnn hmul.le) hfit
  have hq : 0 ≤ Int.tdiv (wrap64 (v * (parseSuffix s.data).2.1)) (parseSuffix s.data).2.2 := by
    rw [hw]
    exact Int.tdiv_nonneg (mul_nonneg hnn hmul.le) hdv.le
  rw [ParseLimit_eq s v hv, if_neg (not_lt.mpr hq)]
  exact ⟨_, rfl, hq⟩

/-- Witness for C6's amended claim at `"10Mbps"`: the numeric portion is 10,
the product `10 * 1000000` fits in `int64`, and parsing succeeds with a
non-negative value. -/
theorem parseLimit_nonneg_when_product_fits_witness :
    goParseInt64 (parseSuffix "10Mbps".data).1 = some 10 ∧
    (0 : Int) ≤ 10 ∧
    10 * (parseSuffix "10Mbps".data).2.1 ≤ int64Max ∧
    (∃ r, ParseLimit "10Mbps" = ParseResult.ok r ∧ 0 ≤ r) := by
  refine ⟨by decide, by decide, by decide, ?_⟩
  exact parseLimit_nonneg_when_product_fits "10Mbps" 10 (by decide) (by decide) (by decide)

/-- C7: for every non-negative rate the burst lies in `[1, 65536]`; rate 0
maps to 65536; and a positive rate maps to `rate / 20` (truncated) clamped
into `[1, 65536]`. -/
theorem getGoodBurst_clamped (l : Int) (hl : 0 ≤ l) :
    (1 ≤ GetGoodBurst l ∧ GetGoodBurst l ≤ 65536) ∧
    GetGoodBurst 0 = 65536 ∧
    (0 < l → GetGoodBurst l = max 1 (min (Int.tdiv l 20) 65536)) := by
  refine ⟨?_, by decide, ?_⟩
  · simp only [GetGoodBurst, MinBurstSize, MaxBurstSize]
    generalize Int.tdiv l 20 = q
    split_ifs <;> omega
  · intro hp
    simp only [GetGoodBurst, MinBurstSize, MaxBurstSize]
    generalize Int.tdiv l 20 = q
    split_ifs <;> omega

/-- Witness for C7 at rate 100: the burst is `clamp(100 / 20, 1, 65536) = 5`. -/
theorem getGoodBurst_clamped_witness :
    (1 ≤ GetGoodBurst 100 ∧ GetGoodBurst 100 ≤ 65536) ∧ GetGoodBurst 100 = 5 := by
  have h := getGoodBurst_clamped 100 (by decide)
  refine ⟨h.1, ?_⟩
  rw [h.2.2 (by decide)]
  decide

/-- C8: every Read or Write call with a non-empty buffer of length `L` that
passes its pre-I/O wait performs exactly one underlying I/O call, on a chunk
of size exactly `min(burst, L)` — it never loops internally. -/
theorem read_write_single_chunked_io (c : LimitedConnection) (env : Env) (bLen : Nat)
    (hb : bLen ≠ 0) (hcl : env.closedDuringWait1 = false) :
    (c.Read env bLen).1.ioChunks = [min env.burst bLen] ∧
    (c.Write env bLen).1.ioChunks = [min env.burst bLen] := by
  constructor
  · simpa [LimitedConnection.Read] using
      rateLimitLoop_ioChunks c.readNotBefore c.readDeadline env bLen hb hcl
  · simpa [LimitedConnection.Write] using
      rateLimitLoop_ioChunks c.writeNotBefore c.writeDeadline env bLen hb hcl

/-- Witness for C8: burst 4 against a 6-byte buffer gives one chunk of 4. -/
theorem read_write_single_chunked_io_witness :
    (NewLimitedConnection.Read (Env.mk 1 2 4 3 none 0 false false) 6).1.ioChunks
        = [min 4 6] ∧
    (NewLimitedConnection.Write (Env.mk 1 2 4 3 none 0 false false) 6).1.ioChunks
        = [min 4 6] :=
  read_write_single_chunked_io NewLimitedConnection
    (Env.mk 1 2 4 3 none 0 false false) 6 (by decide) rfl

/-- C9: when the single underlying I/O call transfers zero bytes, the call
returns that zero count with the underlying error unchanged, reserves no
tokens, and leaves the connection state (including the direction's
not-before timestamp) untouched. -/
theorem read_write_zero_transfer_frame (c : LimitedConnection) (env : Env) (bLen : Nat)
    (hb : bLen ≠ 0) (hcl : env.closedDuringWait1 = false) (hn : env.innerN = 0) :
    ((c.Read env bLen).1.cntr = 0 ∧ (c.Read env bLen).1.err = env.innerErr ∧
     (c.Read env bLen).1.reservedN = none ∧ (c.Read env bLen).2 = c) ∧
    ((c.Write env bLen).1.cntr = 0 ∧ (c.Write env bLen).1.err = env.innerErr ∧
     (c.Write env bLen).1.reservedN = none ∧ (c.Write env bLen).2 = c) := by
  have h1 := rateLimitLoop_zero_transfer c.readNotBefore c.readDeadline env bLen hb hcl hn
  have h2 := rateLimitLoop_zero_transfer c.writeNotBefore c.writeDeadline env bLen hb hcl hn
  constructor
  · simp [LimitedConnection.Read, h1]
  · simp [LimitedConnection.Write, h2]

/-- Witness for C9: a zero-byte transfer carrying an opaque inner error is
passed through unchanged on a fresh connection. -/
theorem read_write_zero_transfer_frame_witness :
    (NewLimitedConnection.Read (Env.mk 1 2 4 0 (some (GoErr.inner 7)) 0 false false) 6).1.cntr
        = 0 ∧
    (NewLimitedConnection.Read (Env.mk 1 2 4 0 (some (GoErr.inner 7)) 0 false false) 6).1.err
        = some (GoErr.inner 7) ∧
    (NewLimitedConnection.Read (Env.mk 1 2 4 0 (some (GoErr.inner 7)) 0 false false) 6).2
        = NewLimitedConnection := by
  have h := read_write_zero_transfer_frame NewLimitedConnection
    (Env.mk 1 2 4 0 (some (GoErr.inner 7)) 0 false false) 6 (by decide) rfl rfl
  exact ⟨h.1.1, h.1.2.1, h.1.2.2.2⟩

/-- C10: a fresh connection starts with zero-valued not-before timestamps
and zero-valued deadlines for both directions, so the first Read and the
first Write never enter the pre-I/O wait. -/
theorem fresh_connection_no_prewait (env : Env) (bLen : Nat) (hnow : 0 ≤ env.now1) :
    NewLimitedConnection.readNotBefore = 0 ∧ NewLimitedConnection.writeNotBefore = 0 ∧
    NewLimitedConnection.readDeadline = 0 ∧ NewLimitedConnection.writeDeadline = 0 ∧
    (NewLimitedConnection.Read env bLen).1.preWaited = false ∧
    (NewLimitedConnection.Write env bLen).1.preWaited = false := by
  refine ⟨rfl, rfl, rfl, rfl, ?_, ?_⟩
  · simpa [LimitedConnection.Read, NewLimitedConnection] using
      rateLimitLoop_no_prewait 0 env bLen hnow
  · simpa [LimitedConnection.Write, NewLimitedConnection] using
      rateLimitLoop_no_prewait 0 env bLen hnow

/-- Witness for C10 with the clock at the zero instant and a 6-byte buffer. -/
theorem fresh_connection_no_prewait_witness :
    (NewLimitedConnection.Read (Env.mk 0 1 4 3 none 0 false false) 6).1.preWaited = false ∧
    (NewLimitedConnection.Write (Env.mk 0 1 4 3 none 0 false false) 6).1.preWaited = false := by
  have h := fresh_connection_no_prewait (Env.mk 0 1 4 3 none 0 false false) 6 (by decide)
  exact ⟨h.2.2.2.2.1, h.2.2.2.2.2⟩
